import Mathlib

set_option maxRecDepth 100000

/-!
Verification of the carla-data-serde adapter layer.

The Rust sources under `src/serde/` are shallowly embedded below.  The
generic serde backend is modelled by a value-based serializer: encoding
produces an `SValue` (the serde data model: sequences, structs with named
fields in declaration order, unit enum variants carried as integer tags),
and decoding consumes an `SValue` and either returns a value or a typed
decode error.  Machine integers (`u8`, `usize`) are modelled as `Nat`;
`f32`/`f64` fields are never computed with, only copied and reprinted, so
they are modelled as opaque bit patterns of type `Nat`, and their textual
form in the bounded renderer is abstracted to the decimal form of the bit
pattern (a token made of digits only, which no structural count in the
theorems below can confuse with brackets, braces or elision markers).
-/

/-- Serde data model value, as produced by a serde `Serializer` and consumed
by a `Deserializer`.  Struct type names are omitted: serde formats treat the
name passed to `serialize_struct` as a hint, and the byte output of the
standard backends depends only on the field names, field order and values
kept here.  Unit enum variants travel as their integer variant tag. -/
inductive SValue where
  | vnat  (n : Nat)
  | vbool (b : Bool)
  | vf32  (bits : Nat)
  | vf64  (bits : Nat)
  | vseq  (xs : List SValue)
  | vstr  (fields : List (String × SValue))
  | vtag  (idx : Nat)

/-- Decode errors, following the error taxonomy of the specification
(section 7): `custom` carries the human-readable message of
`serde::de::Error::custom` (the ragged-grid rejection uses it),
`unknownVariant` is an enum tag outside the declared discriminant set,
`malformedElement` is a structurally invalid element or struct. -/
inductive DError where
  | custom (msg : String)
  | invalidType
  | malformedElement
  | unknownVariant (idx : Nat)
deriving DecidableEq

/-- Foreign pixel type `carla::sensor::data::Color`; field storage order is
(b, g, r, a), as in the foreign definition mirrored by `ColorRemote`. -/
structure Color where
  b : Nat
  g : Nat
  r : Nat
  a : Nat
deriving DecidableEq

/-- Foreign element type `carla::sensor::data::RadarDetection`; the four
`f32` fields are opaque bit patterns. -/
structure RadarDetection where
  velocity : Nat
  azimuth  : Nat
  altitude : Nat
  depth    : Nat
deriving DecidableEq

/-- Model of `ndarray::Array2` (and of `ArrayView2`, which views the same
data): a shape `(h, w)` plus the row-major flat element list. -/
structure Array2 (α : Type) where
  h : Nat
  w : Nat
  flat : List α
deriving DecidableEq

/-- Row-major rows of a 2D array: `h` consecutive chunks of width `w`,
exactly what `Array2::rows()` iterates. -/
def chunkRows (w : Nat) : Nat → List α → List (List α)
  | 0, _ => []
  | hh + 1, flat => flat.take w :: chunkRows w hh (flat.drop w)

def Array2.rowsList (arr : Array2 α) : List (List α) :=
  chunkRows arr.w arr.h arr.flat

/-- Shape invariant of `ndarray::Array2`: the data length equals the shape
product.  Every array obtained from the foreign `as_array()` accessor or
from `from_shape_vec` satisfies it. -/
def Array2.wf (arr : Array2 α) : Prop :=
  arr.flat.length = arr.h * arr.w

def Array2.map (f : α → β) (arr : Array2 α) : Array2 β :=
  ⟨arr.h, arr.w, arr.flat.map f⟩

/-- Model of `ndarray::Array2::from_shape_vec`: accepts the flat data iff
its length matches the shape product. -/
def Array2.from_shape_vec (hw : Nat × Nat) (flat : List α) : Except String (Array2 α) :=
  if flat.length = hw.1 * hw.2 then .ok ⟨hw.1, hw.2, flat⟩
  else .error "shape does not match data length"

/-- The `while let Some(x) = seq.next_element()? ... push(x)` loop of the
serde sequence visitors: decode the elements in order, stopping at the
first failure. -/
def decodeListWith (dec : SValue → Except DError α) : List SValue → Except DError (List α)
  | [] => .ok []
  | v :: vs => do
    let x ← dec v
    let xs ← decodeListWith dec vs
    .ok (x :: xs)

-- ===================== src/serde/image.rs =====================

def PREVIEW_W : Nat := 3
def PREVIEW_H : Nat := 3

/-- `ColorRemote::serialize`: the remote-schema shim emits the pixel fields
in the declared (foreign storage) order b, g, r, a. -/
def ColorRemote_serialize (c : Color) : SValue :=
  .vstr [("b", .vnat c.b), ("g", .vnat c.g), ("r", .vnat c.r), ("a", .vnat c.a)]

/-- `ColorRemote::deserialize`: consumes the four pixel fields in the same
declared order and rebuilds a foreign `Color`. -/
def ColorRemote_deserialize : SValue → Except DError Color
  | .vstr [("b", .vnat b), ("g", .vnat g), ("r", .vnat r), ("a", .vnat a)] =>
      .ok ⟨b, g, r, a⟩
  | _ => .error .malformedElement

/-- `arrayview2_color_remote::serialize` (borrowed 2D serializer): an outer
sequence of rows, each row a sequence of pixels encoded via the shim. -/
def arrayview2_color_remote_serialize (arr : Array2 Color) : SValue :=
  .vseq (arr.rowsList.map (fun row => .vseq (row.map ColorRemote_serialize)))

/-- `array2_color_remote::serialize` (owned 2D serializer); same wire shape
as the borrowed one. -/
def array2_color_remote_serialize (arr : Array2 Color) : SValue :=
  .vseq (arr.rowsList.map (fun row => .vseq (row.map ColorRemote_serialize)))

/-- One inner row, decoded as `Vec<ColorFromRemote>`. -/
def decodeColorRow : SValue → Except DError (List Color)
  | .vseq es => decodeListWith ColorRemote_deserialize es
  | _ => .error .invalidType

/-- `array2_color_remote::deserialize`: collect the rows, let `h` be their
number and `w` the length of the first row (0 if none); an empty grid
decodes to the explicit 0x0 array, a row of deviating length is rejected
with the ragged-grid error, otherwise the rows are flattened row-major and
handed to `from_shape_vec` with shape `(h, w)`. -/
def array2_color_remote_deserialize : SValue → Except DError (Array2 Color)
  | .vseq outer => do
    let rows ← decodeListWith decodeColorRow outer
    let h := rows.length
    let w := (rows.head?.map List.length).getD 0
    if w = 0 ∧ h = 0 then
      .ok ⟨0, 0, []⟩
    else if rows.all (fun r => r.length == w) then
      match Array2.from_shape_vec (h, w) rows.flatten with
      | .ok arr => .ok arr
      | .error e => .error (.custom e)
    else
      .error (.custom "ragged 2D array")
  | _ => .error .invalidType

/-- Foreign `carla::sensor::data::Image` event, reduced to its read-only
accessor contract: `height()`, `width()`, `len()`, `is_empty()`,
`fov_angle()` and the pixel grid returned by `as_array()`. -/
structure ImageEvent where
  height : Nat
  width : Nat
  len : Nat
  is_empty : Bool
  fov_angle : Nat
  arrData : Array2 Color

/-- Borrowed, zero-copy image adapter `ImageEventSerBorrowed`. -/
structure ImageEventSerBorrowed where
  height : Nat
  width : Nat
  len : Nat
  is_empty : Bool
  fov_angle : Nat
  array : Array2 Color

/-- `From<&ImageEvent> for ImageEventSerBorrowed`: copies the scalar
metadata and borrows the pixel grid in place. -/
def ImageEventSerBorrowed.ofEvent (value : ImageEvent) : ImageEventSerBorrowed :=
  ⟨value.height, value.width, value.len, value.is_empty, value.fov_angle, value.arrData⟩

/-- Owned, round-trip image adapter `ImageEventSerDe`. -/
structure ImageEventSerDe where
  height : Nat
  width : Nat
  len : Nat
  is_empty : Bool
  fov_angle : Nat
  array : Array2 Color
deriving DecidableEq

/-- `From<ImageEvent> for ImageEventSerDe`: copies the scalar metadata and
converts the grid element by element into adapter-owned storage. -/
def ImageEventSerDe.ofEvent (value : ImageEvent) : ImageEventSerDe :=
  let view := value.arrData
  let array : Array2 Color := view.map (fun c => { b := c.b, g := c.g, r := c.r, a := c.a })
  ⟨value.height, value.width, value.len, value.is_empty, value.fov_angle, array⟩

/-- Derived `Serialize` for `ImageEventSerBorrowed`: the five scalar fields
in declaration order, then the grid through the borrowed 2D serializer. -/
def ImageEventSerBorrowed.encode (s : ImageEventSerBorrowed) : SValue :=
  .vstr [("height", .vnat s.height), ("width", .vnat s.width), ("len", .vnat s.len),
         ("is_empty", .vbool s.is_empty), ("fov_angle", .vf32 s.fov_angle),
         ("array", arrayview2_color_remote_serialize s.array)]

/-- Derived `Serialize` for `ImageEventSerDe`. -/
def ImageEventSerDe.encode (s : ImageEventSerDe) : SValue :=
  .vstr [("height", .vnat s.height), ("width", .vnat s.width), ("len", .vnat s.len),
         ("is_empty", .vbool s.is_empty), ("fov_angle", .vf32 s.fov_angle),
         ("array", array2_color_remote_serialize s.array)]

/-- Derived `Deserialize` for `ImageEventSerDe`: the scalar fields are read
back in declaration order (the canonical encoding layout; permuted field
orders, which serde also accepts, are not exercised by any claim) and the
grid goes through `array2_color_remote::deserialize`. -/
def ImageEventSerDe.decode : SValue → Except DError ImageEventSerDe
  | .vstr [("height", .vnat hv), ("width", .vnat wv), ("len", .vnat lv),
           ("is_empty", .vbool ev), ("fov_angle", .vf32 fv), ("array", av)] => do
      let arr ← array2_color_remote_deserialize av
      .ok ⟨hv, wv, lv, ev, fv, arr⟩
  | _ => .error .malformedElement

-- ===================== src/serde/radar_measurement.rs =====================

def PREVIEW_DETECTIONS : Nat := 5

/-- `RadarDetectionRemote::serialize`: fields in declared order velocity,
azimuth, altitude, depth. -/
def RadarDetectionRemote_serialize (d : RadarDetection) : SValue :=
  .vstr [("velocity", .vf32 d.velocity), ("azimuth", .vf32 d.azimuth),
         ("altitude", .vf32 d.altitude), ("depth", .vf32 d.depth)]

/-- `RadarDetectionRemote::deserialize`. -/
def RadarDetectionRemote_deserialize : SValue → Except DError RadarDetection
  | .vstr [("velocity", .vf32 v), ("azimuth", .vf32 az), ("altitude", .vf32 al),
           ("depth", .vf32 dp)] => .ok ⟨v, az, al, dp⟩
  | _ => .error .malformedElement

/-- `slice_radar_detection_remote::serialize` (borrowed 1D serializer). -/
def slice_radar_detection_remote_serialize (s : List RadarDetection) : SValue :=
  .vseq (s.map RadarDetectionRemote_serialize)

/-- `vec_radar_detection_remote::serialize` (owned 1D serializer). -/
def vec_radar_detection_remote_serialize (v : List RadarDetection) : SValue :=
  .vseq (v.map RadarDetectionRemote_serialize)

/-- `vec_radar_detection_remote::deserialize`: an ordered sequence of
detections, each through the shim; the element count becomes the length. -/
def vec_radar_detection_remote_deserialize : SValue → Except DError (List RadarDetection)
  | .vseq es => decodeListWith RadarDetectionRemote_deserialize es
  | _ => .error .invalidType

/-- Foreign `carla::sensor::data::RadarMeasurement` event, reduced to its
accessors `detection_amount()`, `as_slice()`, `len()`, `is_empty()`. -/
structure RadarMeasurementEvent where
  detection_amount : Nat
  detections : List RadarDetection
  len : Nat
  is_empty : Bool

/-- Borrowed, zero-copy radar adapter `RadarMeasurementSerBorrowed`. -/
structure RadarMeasurementSerBorrowed where
  detection_amount : Nat
  detections : List RadarDetection
  len : Nat
  is_empty : Bool

/-- `From<&RadarMeasurementEvent> for RadarMeasurementSerBorrowed`. -/
def RadarMeasurementSerBorrowed.ofEvent (m : RadarMeasurementEvent) : RadarMeasurementSerBorrowed :=
  ⟨m.detection_amount, m.detections, m.len, m.is_empty⟩

/-- Owned, round-trip radar adapter `RadarMeasurementSerDe`. -/
structure RadarMeasurementSerDe where
  detection_amount : Nat
  detections : List RadarDetection
  len : Nat
  is_empty : Bool
deriving DecidableEq

/-- Modelled from the spec: the owned-adapter construction operation for the
radar kind (spec section 4.4) is not present in `src/` (only the owned type
and its codec are); per the spec it copies the same scalar metadata as the
borrowed variant and converts the detection sequence element by element into
adapter-owned storage. -/
def RadarMeasurementSerDe.ofEvent (m : RadarMeasurementEvent) : RadarMeasurementSerDe :=
  ⟨m.detection_amount,
   m.detections.map (fun d => { velocity := d.velocity, azimuth := d.azimuth,
                                altitude := d.altitude, depth := d.depth }),
   m.len, m.is_empty⟩

/-- Derived `Serialize` for `RadarMeasurementSerBorrowed`: fields in
declaration order detection_amount, detections, len, is_empty. -/
def RadarMeasurementSerBorrowed.encode (s : RadarMeasurementSerBorrowed) : SValue :=
  .vstr [("detection_amount", .vnat s.detection_amount),
         ("detections", slice_radar_detection_remote_serialize s.detections),
         ("len", .vnat s.len), ("is_empty", .vbool s.is_empty)]

/-- Derived `Serialize` for `RadarMeasurementSerDe`. -/
def RadarMeasurementSerDe.encode (s : RadarMeasurementSerDe) : SValue :=
  .vstr [("detection_amount", .vnat s.detection_amount),
         ("detections", vec_radar_detection_remote_serialize s.detections),
         ("len", .vnat s.len), ("is_empty", .vbool s.is_empty)]

/-- Derived `Deserialize` for `RadarMeasurementSerDe` (canonical field
order, as for the image adapter). -/
def RadarMeasurementSerDe.decode : SValue → Except DError RadarMeasurementSerDe
  | .vstr [("detection_amount", .vnat da), ("detections", dv),
           ("len", .vnat lv), ("is_empty", .vbool ev)] => do
      let ds ← vec_radar_detection_remote_deserialize dv
      .ok ⟨da, ds, lv, ev⟩
  | _ => .error .malformedElement

-- ===================== src/serde/imu_measurement.rs =====================

/-- Foreign 3D vector returned by the IMU accessors; `f32` components as
opaque bit patterns. -/
structure Vector3D where
  x : Nat
  y : Nat
  z : Nat

/-- Modelled from the spec: `Vector3DSerDe` lives at the crate root, outside
the four files under `src/`; per the wire format of spec section 6 it is the
owned triple with fields x, y, z. -/
structure Vector3DSerDe where
  x : Nat
  y : Nat
  z : Nat
deriving DecidableEq

/-- Modelled from the spec: conversion of a foreign vector into the owned
triple (straight field copy). -/
def Vector3DSerDe.ofVec (v : Vector3D) : Vector3DSerDe :=
  ⟨v.x, v.y, v.z⟩

/-- Modelled from the spec: derived `Serialize` for `Vector3DSerDe`. -/
def Vector3DSerDe.encode (v : Vector3DSerDe) : SValue :=
  .vstr [("x", .vf32 v.x), ("y", .vf32 v.y), ("z", .vf32 v.z)]

/-- Modelled from the spec: derived `Deserialize` for `Vector3DSerDe`. -/
def Vector3DSerDe.decode : SValue → Except DError Vector3DSerDe
  | .vstr [("x", .vf32 xv), ("y", .vf32 yv), ("z", .vf32 zv)] => .ok ⟨xv, yv, zv⟩
  | _ => .error .malformedElement

/-- Owned IMU adapter `ImuMeasurementSerDe`. -/
structure ImuMeasurementSerDe where
  accelerometer : Vector3DSerDe
  gyroscope : Vector3DSerDe
  compass : Nat
deriving DecidableEq

/-- Derived `Serialize` for `ImuMeasurementSerDe`: accelerometer,
gyroscope, compass in declaration order. -/
def ImuMeasurementSerDe.encode (m : ImuMeasurementSerDe) : SValue :=
  .vstr [("accelerometer", m.accelerometer.encode),
         ("gyroscope", m.gyroscope.encode),
         ("compass", .vf32 m.compass)]

/-- Derived `Deserialize` for `ImuMeasurementSerDe`. -/
def ImuMeasurementSerDe.decode : SValue → Except DError ImuMeasurementSerDe
  | .vstr [("accelerometer", av), ("gyroscope", gv), ("compass", .vf32 cv)] => do
      let acc ← Vector3DSerDe.decode av
      let gyr ← Vector3DSerDe.decode gv
      .ok ⟨acc, gyr, cv⟩
  | _ => .error .malformedElement

-- ===================== src/serde/lane_invasion.rs =====================

/-- Foreign `carla::road::element::LaneMarking_Type`. -/
inductive LaneMarking_Type where
  | Other | Broken | Solid | SolidSolid | SolidBroken | BrokenSolid
  | BrokenBroken | BottsDots | Grass | Curb | None
deriving DecidableEq

/-- Foreign `carla::road::element::LaneMarking_Color`. -/
inductive LaneMarking_Color where
  | Standard | Blue | Green | Red | Yellow | Other
deriving DecidableEq

/-- Foreign `carla::road::element::LaneMarking_LaneChange`. -/
inductive LaneMarking_LaneChange where
  | None | Right | Left | Both
deriving DecidableEq

/-- Variant tag emitted by `LaneMarkingTypeSerDe::serialize` (declared
discriminants 0 through 10 in declaration order). -/
def LaneMarking_Type.tagOf : LaneMarking_Type → Nat
  | .Other => 0 | .Broken => 1 | .Solid => 2 | .SolidSolid => 3 | .SolidBroken => 4
  | .BrokenSolid => 5 | .BrokenBroken => 6 | .BottsDots => 7 | .Grass => 8
  | .Curb => 9 | .None => 10

/-- Tag decode half of `LaneMarkingTypeSerDe::deserialize`: every declared
tag maps back to its variant, anything else is an unknown-variant error. -/
def LaneMarking_Type.ofTag : Nat → Except DError LaneMarking_Type
  | 0 => .ok .Other | 1 => .ok .Broken | 2 => .ok .Solid | 3 => .ok .SolidSolid
  | 4 => .ok .SolidBroken | 5 => .ok .BrokenSolid | 6 => .ok .BrokenBroken
  | 7 => .ok .BottsDots | 8 => .ok .Grass | 9 => .ok .Curb | 10 => .ok .None
  | idx => .error (.unknownVariant idx)

/-- Variant tag emitted by `LaneMarkingColorSerDe::serialize` (0..5). -/
def LaneMarking_Color.tagOf : LaneMarking_Color → Nat
  | .Standard => 0 | .Blue => 1 | .Green => 2 | .Red => 3 | .Yellow => 4 | .Other => 5

/-- Tag decode half of `LaneMarkingColorSerDe::deserialize`. -/
def LaneMarking_Color.ofTag : Nat → Except DError LaneMarking_Color
  | 0 => .ok .Standard | 1 => .ok .Blue | 2 => .ok .Green | 3 => .ok .Red
  | 4 => .ok .Yellow | 5 => .ok .Other
  | idx => .error (.unknownVariant idx)

/-- Variant tag emitted by `LaneMarkingLaneChangeSerDe::serialize` (0..3). -/
def LaneMarking_LaneChange.tagOf : LaneMarking_LaneChange → Nat
  | .None => 0 | .Right => 1 | .Left => 2 | .Both => 3

/-- Tag decode half of `LaneMarkingLaneChangeSerDe::deserialize`. -/
def LaneMarking_LaneChange.ofTag : Nat → Except DError LaneMarking_LaneChange
  | 0 => .ok .None | 1 => .ok .Right | 2 => .ok .Left | 3 => .ok .Both
  | idx => .error (.unknownVariant idx)

/-- `LaneMarkingTypeSerDe::deserialize` on the serde data model: a unit
variant tag is dispatched through the declared tag set. -/
def LaneMarkingTypeSerDe_deserialize : SValue → Except DError LaneMarking_Type
  | .vtag n => LaneMarking_Type.ofTag n
  | _ => .error .invalidType

/-- `LaneMarkingColorSerDe::deserialize` on the serde data model. -/
def LaneMarkingColorSerDe_deserialize : SValue → Except DError LaneMarking_Color
  | .vtag n => LaneMarking_Color.ofTag n
  | _ => .error .invalidType

/-- `LaneMarkingLaneChangeSerDe::deserialize` on the serde data model. -/
def LaneMarkingLaneChangeSerDe_deserialize : SValue → Except DError LaneMarking_LaneChange
  | .vtag n => LaneMarking_LaneChange.ofTag n
  | _ => .error .invalidType

/-- Owned lane-marking record `LaneMarkingSerDe`: the three foreign enum
fields go through their remote shims, `width` is an `f64`. -/
structure LaneMarkingSerDe where
  marking_type : LaneMarking_Type
  marking_color : LaneMarking_Color
  lane_change : LaneMarking_LaneChange
  width : Nat
deriving DecidableEq

/-- Derived `Serialize` for `LaneMarkingSerDe`. -/
def LaneMarkingSerDe.encode (m : LaneMarkingSerDe) : SValue :=
  .vstr [("marking_type", .vtag m.marking_type.tagOf),
         ("marking_color", .vtag m.marking_color.tagOf),
         ("lane_change", .vtag m.lane_change.tagOf),
         ("width", .vf64 m.width)]

/-- Derived `Deserialize` for `LaneMarkingSerDe`. -/
def LaneMarkingSerDe.decode : SValue → Except DError LaneMarkingSerDe
  | .vstr [("marking_type", tv), ("marking_color", cv), ("lane_change", lv),
           ("width", .vf64 wv)] => do
      let t ← LaneMarkingTypeSerDe_deserialize tv
      let c ← LaneMarkingColorSerDe_deserialize cv
      let l ← LaneMarkingLaneChangeSerDe_deserialize lv
      .ok ⟨t, c, l, wv⟩
  | _ => .error .malformedElement

/-- Owned lane-invasion adapter `LaneInvasionEventSerDe`. -/
structure LaneInvasionEventSerDe where
  crossed_lane_markings : List LaneMarkingSerDe
deriving DecidableEq

/-- Derived `Serialize` for `LaneInvasionEventSerDe`. -/
def LaneInvasionEventSerDe.encode (e : LaneInvasionEventSerDe) : SValue :=
  .vstr [("crossed_lane_markings", .vseq (e.crossed_lane_markings.map LaneMarkingSerDe.encode))]

/-- Derived `Deserialize` for `LaneInvasionEventSerDe`. -/
def LaneInvasionEventSerDe.decode : SValue → Except DError LaneInvasionEventSerDe
  | .vstr [("crossed_lane_markings", .vseq es)] => do
      let ms ← decodeListWith LaneMarkingSerDe.decode es
      .ok ⟨ms⟩
  | _ => .error .malformedElement

-- ===================== bounded renderer (Debug impls) =====================

/-- Sequential `write!` calls into the formatter are modelled as string
concatenation of the pieces written by a loop body over a list. -/
def concatMapStr (f : α → String) : List α → String
  | [] => ""
  | x :: xs => f x ++ concatMapStr f xs

/-- Textual form of an opaque `f32` bit pattern in the renderer; abstracted
to the decimal form of the bits (digits only). -/
def f32Text (bits : Nat) : String := Nat.repr bits

/-- Textual form of an opaque `f64` bit pattern in the renderer. -/
def f64Text (bits : Nat) : String := Nat.repr bits

/-- `Debug` output of a boolean field. -/
def boolText (b : Bool) : String := if b then "true" else "false"

/-- Comma-separated row elements: the first element bare, every later one
after a comma-space (the `if i > 0` branch of the loops). -/
def write_row_elems (wpx : α → String) : List α → String
  | [] => ""
  | x :: xs => wpx x ++ concatMapStr (fun y => ", " ++ wpx y) xs

/-- `write_full_matrix`: every row and every element, each row on its own
bracketed line. -/
def write_full_matrix (rows : List (List α)) (wpx : α → String) : String :=
  "[\n"
  ++ concatMapStr (fun row => "  [" ++ write_row_elems wpx row ++ "],\n") rows
  ++ "]"

/-- `write_preview_matrix`: at most `max_h` rows, within each at most
`max_w` elements, an in-row elision marker when the row has more columns
than shown, and a trailing elision line when `total_rows` exceeds the
number of rows shown. -/
def write_preview_matrix (rows : List (List α)) (total_rows max_h max_w : Nat)
    (wpx : α → String) : String :=
  let shown := rows.take max_h
  "[\n"
  ++ concatMapStr (fun row =>
       "  [" ++ write_row_elems wpx (row.take max_w)
       ++ (if max_w < row.length then ", …" else "") ++ "],\n") shown
  ++ (if shown.length < total_rows then "  …\n" else "")
  ++ "]"

/-- `write_rgba`: pixel pretty-printer, channels reordered to (r, g, b, a)
for readability. -/
def write_rgba (px : Color) : String :=
  "(" ++ Nat.repr px.r ++ ", " ++ Nat.repr px.g ++ ", " ++ Nat.repr px.b
  ++ ", " ++ Nat.repr px.a ++ ")"

/-- Rust `DebugStruct` header ended by `finish_non_exhaustive`: the struct
name and every listed field followed by a non-exhaustiveness marker, in the
multi-line alternate layout or the single-line layout. -/
def finish_non_exhaustive (alt : Bool) (name : String)
    (fields : List (String × String)) : String :=
  if alt then
    name ++ " \x7b\n"
    ++ concatMapStr (fun kv => "    " ++ kv.1 ++ ": " ++ kv.2 ++ ",\n") fields
    ++ "    ..\n\x7d"
  else if fields.isEmpty then
    name ++ " \x7b .. \x7d"
  else
    name ++ " \x7b "
    ++ write_row_elems (fun kv => kv.1 ++ ": " ++ kv.2) fields
    ++ ", .. \x7d"

/-- `Debug for ImageEventSerDe` (`alt` is the `{:#?}` alternate flag): the
unconditional scalar header, then the full matrix or the bounded preview
with both caps clamped to the dimensions. -/
def ImageEventSerDe.debugFmt (alt : Bool) (s : ImageEventSerDe) : String :=
  let hh := s.array.h
  let ww := s.array.w
  finish_non_exhaustive alt "ImageEventSerDe"
    [("height", Nat.repr s.height), ("width", Nat.repr s.width),
     ("len", Nat.repr s.len), ("is_empty", boolText s.is_empty),
     ("fov_angle", f32Text s.fov_angle)]
  ++ "\narray "
  ++ (if alt then
        "(full " ++ Nat.repr hh ++ "x" ++ Nat.repr ww ++ ") = "
        ++ write_full_matrix s.array.rowsList write_rgba
      else
        "(preview " ++ Nat.repr hh ++ "x" ++ Nat.repr ww ++ ", showing "
        ++ Nat.repr (min PREVIEW_H hh) ++ "x" ++ Nat.repr (min PREVIEW_W ww) ++ ") = "
        ++ write_preview_matrix s.array.rowsList hh (min PREVIEW_H hh) (min PREVIEW_W ww)
             write_rgba)

/-- `Debug for ImageEventSerBorrowed`: identical to the owned impl except
for the struct name and that the preview caps are passed unclamped. -/
def ImageEventSerBorrowed.debugFmt (alt : Bool) (s : ImageEventSerBorrowed) : String :=
  let hh := s.array.h
  let ww := s.array.w
  finish_non_exhaustive alt "ImageEventSerBorrowed"
    [("height", Nat.repr s.height), ("width", Nat.repr s.width),
     ("len", Nat.repr s.len), ("is_empty", boolText s.is_empty),
     ("fov_angle", f32Text s.fov_angle)]
  ++ "\narray "
  ++ (if alt then
        "(full " ++ Nat.repr hh ++ "x" ++ Nat.repr ww ++ ") = "
        ++ write_full_matrix s.array.rowsList write_rgba
      else
        "(preview " ++ Nat.repr hh ++ "x" ++ Nat.repr ww ++ ", showing "
        ++ Nat.repr (min PREVIEW_H hh) ++ "x" ++ Nat.repr (min PREVIEW_W ww) ++ ") = "
        ++ write_preview_matrix s.array.rowsList hh PREVIEW_H PREVIEW_W write_rgba)

/-- `write_radar_detection`: one detection as a braced field list. -/
def write_radar_detection (d : RadarDetection) : String :=
  "\x7b velocity: " ++ f32Text d.velocity ++ ", azimuth: " ++ f32Text d.azimuth
  ++ ", altitude: " ++ f32Text d.altitude ++ ", depth: " ++ f32Text d.depth ++ " \x7d"

/-- `write_radar_seq_full`: every detection on its own indented line. -/
def write_radar_seq_full (detections : List RadarDetection) : String :=
  "[\n"
  ++ concatMapStr (fun d => "  " ++ write_radar_detection d ++ ",\n") detections
  ++ "]"

/-- `write_radar_seq_preview`: the cap is first clamped to `total`, at most
that many detections are printed, and when `total` exceeds the number shown
a remaining-count elision line follows. -/
def write_radar_seq_preview (detections : List RadarDetection)
    (total max_show : Nat) : String :=
  let cap := min max_show total
  let shownList := detections.take cap
  "[\n"
  ++ concatMapStr (fun d => "  " ++ write_radar_detection d ++ ",\n") shownList
  ++ (if shownList.length < total then
        "  … (" ++ Nat.repr (total - shownList.length) ++ " more)\n"
      else "")
  ++ "]"

/-- `Debug for RadarMeasurementSerDe`: unconditional scalar header, then
the full sequence or the preview with `total` taken from the stored `len`
field. -/
def RadarMeasurementSerDe.debugFmt (alt : Bool) (s : RadarMeasurementSerDe) : String :=
  finish_non_exhaustive alt "RadarMeasurementSerDe"
    [("detection_amount", Nat.repr s.detection_amount),
     ("len", Nat.repr s.len), ("is_empty", boolText s.is_empty)]
  ++ "\ndetections "
  ++ (if alt then
        "(full, " ++ Nat.repr s.len ++ " total) = "
        ++ write_radar_seq_full s.detections
      else
        "(preview showing " ++ Nat.repr (min PREVIEW_DETECTIONS s.len) ++ " of "
        ++ Nat.repr s.len ++ ") = "
        ++ write_radar_seq_preview s.detections s.len PREVIEW_DETECTIONS)

/-- `Debug for RadarMeasurementSerBorrowed`: same layout, borrowed name. -/
def RadarMeasurementSerBorrowed.debugFmt (alt : Bool)
    (s : RadarMeasurementSerBorrowed) : String :=
  finish_non_exhaustive alt "RadarMeasurementSerBorrowed"
    [("detection_amount", Nat.repr s.detection_amount),
     ("len", Nat.repr s.len), ("is_empty", boolText s.is_empty)]
  ++ "\ndetections "
  ++ (if alt then
        "(full, " ++ Nat.repr s.len ++ " total) = "
        ++ write_radar_seq_full s.detections
      else
        "(preview showing " ++ Nat.repr (min PREVIEW_DETECTIONS s.len) ++ " of "
        ++ Nat.repr s.len ++ ") = "
        ++ write_radar_seq_preview s.detections s.len PREVIEW_DETECTIONS)

-- ===================== text observation helpers =====================

/-- Number of occurrences of a character in a rendered string. -/
def ccount (s : String) (c : Char) : Nat := s.data.count c

/-- Split a character list at newline characters (the lines of the
rendered output; a trailing newline yields a final empty line). -/
def splitLines : List Char → List (List Char)
  | [] => [[]]
  | c :: cs =>
    if c = '\n' then [] :: splitLines cs
    else
      match splitLines cs with
      | [] => [[c]]
      | l :: ls => (c :: l) :: ls

/-- Whether `pre` is an initial segment of `l`. -/
def listStarts : List Char → List Char → Bool
  | [], _ => true
  | _ :: _, [] => false
  | p :: ps, c :: cs => p == c && listStarts ps cs

/-- Whether `suf` is a final segment of `l`. -/
def listEnds (suf l : List Char) : Bool := listStarts suf.reverse l.reverse

-- ===================== round-trip lemmas =====================

theorem ok_bind (a : α) (f : α → Except ε β) :
    ((Except.ok a : Except ε α) >>= f) = f a := rfl

theorem error_bind (e : ε) (f : α → Except ε β) :
    ((Except.error e : Except ε α) >>= f) = Except.error e := rfl

theorem ColorRemote_rt (c : Color) :
    ColorRemote_deserialize (ColorRemote_serialize c) = .ok c := rfl

theorem RadarDetectionRemote_rt (d : RadarDetection) :
    RadarDetectionRemote_deserialize (RadarDetectionRemote_serialize d) = .ok d := rfl

theorem decodeListWith_map (dec : SValue → Except DError α) (enc : α → SValue)
    (hrt : ∀ x, dec (enc x) = .ok x) (l : List α) :
    decodeListWith dec (l.map enc) = .ok l := by
  induction l with
  | nil => rfl
  | cons x xs ih => simp [decodeListWith, hrt x, ih, ok_bind]

theorem decodeColorRow_rt (row : List Color) :
    decodeColorRow (.vseq (row.map ColorRemote_serialize)) = .ok row := by
  simp [decodeColorRow, decodeListWith_map ColorRemote_deserialize ColorRemote_serialize
    ColorRemote_rt row]

theorem chunkRows_length (w hh : Nat) (flat : List α) :
    (chunkRows w hh flat).length = hh := by
  induction hh generalizing flat with
  | zero => rfl
  | succ n ih => simp [chunkRows, ih]

theorem chunkRows_mem_length (w hh : Nat) (flat : List α)
    (hlen : flat.length = hh * w) :
    ∀ r ∈ chunkRows w hh flat, r.length = w := by
  induction hh generalizing flat with
  | zero => simp [chunkRows]
  | succ n ih =>
    intro r hr
    simp only [chunkRows, List.mem_cons] at hr
    rcases hr with rfl | hr
    · have hge : w ≤ flat.length := by rw [hlen, Nat.succ_mul]; omega
      simp only [List.length_take]
      omega
    · refine ih (flat.drop w) ?_ r hr
      rw [Nat.succ_mul] at hlen
      simp only [List.length_drop]
      omega

theorem chunkRows_flatten (w hh : Nat) (flat : List α)
    (hlen : flat.length = hh * w) :
    (chunkRows w hh flat).flatten = flat := by
  induction hh generalizing flat with
  | zero =>
    simp only [Nat.zero_mul] at hlen
    simp [chunkRows, List.length_eq_zero.mp hlen]
  | succ n ih =>
    simp only [chunkRows, List.flatten_cons]
    rw [ih (flat.drop w) (by rw [Nat.succ_mul] at hlen; simp only [List.length_drop]; omega)]
    exact List.take_append_drop w flat

theorem array2_color_remote_rt (arr : Array2 Color) (hwf : arr.wf)
    (h0 : arr.h = 0 → arr.w = 0) :
    array2_color_remote_deserialize (array2_color_remote_serialize arr) = .ok arr := by
  obtain ⟨hh, ww, flat⟩ := arr
  simp only [Array2.wf] at hwf h0
  simp only [array2_color_remote_serialize, array2_color_remote_deserialize,
    Array2.rowsList]
  rw [decodeListWith_map decodeColorRow (fun row => .vseq (row.map ColorRemote_serialize))
    decodeColorRow_rt (chunkRows ww hh flat)]
  cases hh with
  | zero =>
    have hw0 : ww = 0 := h0 rfl
    have hf0 : flat = [] := List.length_eq_zero.mp (by simpa using hwf)
    subst hw0 hf0
    rfl
  | succ n =>
    have hlens := chunkRows_mem_length ww (n + 1) flat hwf
    have hge : ww ≤ flat.length := by rw [hwf, Nat.succ_mul]; omega
    have hhead : ((chunkRows ww (n + 1) flat).head?.map List.length).getD 0 = ww := by
      simp only [chunkRows, List.head?_cons, Option.map_some', Option.getD_some,
        List.length_take]
      omega
    simp only [ok_bind, chunkRows_length, hhead]
    rw [if_neg (by simp)]
    rw [if_pos (by
      rw [List.all_eq_true]
      intro r hr
      simpa using hlens r hr)]
    rw [chunkRows_flatten ww (n + 1) flat hwf]
    simp [Array2.from_shape_vec, hwf]

theorem ImageEventSerDe_rt (s : ImageEventSerDe) (hwf : s.array.wf)
    (h0 : s.array.h = 0 → s.array.w = 0) :
    ImageEventSerDe.decode (ImageEventSerDe.encode s) = .ok s := by
  obtain ⟨hh, ww, ll, ee, ff, arr⟩ := s
  simp only [ImageEventSerDe.encode, ImageEventSerDe.decode]
  rw [array2_color_remote_rt arr hwf h0]
  rfl

theorem RadarMeasurementSerDe_rt (s : RadarMeasurementSerDe) :
    RadarMeasurementSerDe.decode (RadarMeasurementSerDe.encode s) = .ok s := by
  obtain ⟨da, ds, ll, ee⟩ := s
  simp only [RadarMeasurementSerDe.encode, RadarMeasurementSerDe.decode,
    vec_radar_detection_remote_serialize, vec_radar_detection_remote_deserialize]
  rw [decodeListWith_map RadarDetectionRemote_deserialize RadarDetectionRemote_serialize
    RadarDetectionRemote_rt ds]
  rfl

theorem ImuMeasurementSerDe_rt (m : ImuMeasurementSerDe) :
    ImuMeasurementSerDe.decode (ImuMeasurementSerDe.encode m) = .ok m := rfl

theorem LaneMarking_Type_rt (t : LaneMarking_Type) :
    LaneMarking_Type.ofTag t.tagOf = .ok t := by cases t <;> rfl

theorem LaneMarking_Color_rt (c : LaneMarking_Color) :
    LaneMarking_Color.ofTag c.tagOf = .ok c := by cases c <;> rfl

theorem LaneMarking_LaneChange_rt (l : LaneMarking_LaneChange) :
    LaneMarking_LaneChange.ofTag l.tagOf = .ok l := by cases l <;> rfl

theorem LaneMarkingSerDe_rt (m : LaneMarkingSerDe) :
    LaneMarkingSerDe.decode (LaneMarkingSerDe.encode m) = .ok m := by
  obtain ⟨t, c, l, wd⟩ := m
  simp only [LaneMarkingSerDe.encode, LaneMarkingSerDe.decode,
    LaneMarkingTypeSerDe_deserialize, LaneMarkingColorSerDe_deserialize,
    LaneMarkingLaneChangeSerDe_deserialize]
  rw [LaneMarking_Type_rt, LaneMarking_Color_rt, LaneMarking_LaneChange_rt]
  rfl

theorem LaneInvasionEventSerDe_rt (e : LaneInvasionEventSerDe) :
    LaneInvasionEventSerDe.decode (LaneInvasionEventSerDe.encode e) = .ok e := by
  obtain ⟨ms⟩ := e
  simp only [LaneInvasionEventSerDe.encode, LaneInvasionEventSerDe.decode]
  rw [decodeListWith_map LaneMarkingSerDe.decode LaneMarkingSerDe.encode
    LaneMarkingSerDe_rt ms]
  rfl

theorem LaneMarking_Type_ofTag_unknown (n : Nat) (hn : 10 < n) :
    LaneMarking_Type.ofTag n = .error (.unknownVariant n) := by
  unfold LaneMarking_Type.ofTag
  split <;> first | omega | rfl

theorem LaneMarking_Color_ofTag_unknown (n : Nat) (hn : 5 < n) :
    LaneMarking_Color.ofTag n = .error (.unknownVariant n) := by
  unfold LaneMarking_Color.ofTag
  split <;> first | omega | rfl

theorem LaneMarking_LaneChange_ofTag_unknown (n : Nat) (hn : 3 < n) :
    LaneMarking_LaneChange.ofTag n = .error (.unknownVariant n) := by
  unfold LaneMarking_LaneChange.ofTag
  split <;> first | omega | rfl

-- ===================== renderer counting lemmas =====================

theorem data_append (a b : String) : (a ++ b).data = a.data ++ b.data := rfl

theorem ccount_append (a b : String) (c : Char) :
    ccount (a ++ b) c = ccount a c + ccount b c := by
  simp [ccount, data_append, List.count_append]

theorem ccount_concatMapStr_const (f : α → String) (c : Char) (k : Nat)
    (h : ∀ x, ccount (f x) c = k) (l : List α) :
    ccount (concatMapStr f l) c = k * l.length := by
  induction l with
  | nil => simp [concatMapStr, ccount]
  | cons x xs ih =>
    simp only [concatMapStr, ccount_append, h x, ih, List.length_cons]
    ring

theorem digitChar_isDigit : ∀ m, m < 10 → (Nat.digitChar m).isDigit = true := by decide

theorem toDigitsCore_isDigit (fuel : Nat) :
    ∀ (n : Nat) (acc : List Char), (∀ c ∈ acc, c.isDigit = true) →
      ∀ c ∈ Nat.toDigitsCore 10 fuel n acc, c.isDigit = true := by
  induction fuel with
  | zero => intro n acc hacc c hc; exact hacc c hc
  | succ f ih =>
    intro n acc hacc c hc
    rw [Nat.toDigitsCore] at hc
    have hdig : (Nat.digitChar (n % 10)).isDigit = true :=
      digitChar_isDigit _ (Nat.mod_lt _ (by omega))
    split at hc
    · rcases List.mem_cons.mp hc with rfl | hmem
      · exact hdig
      · exact hacc c hmem
    · refine ih (n / 10) (Nat.digitChar (n % 10) :: acc) ?_ c hc
      intro c' hc'
      rcases List.mem_cons.mp hc' with rfl | hmem
      · exact hdig
      · exact hacc c' hmem

theorem repr_isDigit (n : Nat) : ∀ c ∈ (Nat.repr n).data, c.isDigit = true := by
  intro c hc
  exact toDigitsCore_isDigit (n + 1) n [] (by simp) c hc

theorem ccount_repr (n : Nat) (c : Char) (hc : c.isDigit = false) :
    ccount (Nat.repr n) c = 0 := by
  rw [ccount, List.count_eq_zero]
  intro hmem
  have := repr_isDigit n c hmem
  rw [hc] at this
  exact Bool.false_ne_true this

theorem ccount_repr_lbrace (n : Nat) : ccount (Nat.repr n) '\x7b' = 0 :=
  ccount_repr n _ (by decide)

theorem ccount_repr_ell (n : Nat) : ccount (Nat.repr n) '…' = 0 :=
  ccount_repr n _ (by decide)

theorem ccount_boolText_lbrace (b : Bool) : ccount (boolText b) '\x7b' = 0 := by
  cases b <;> decide

theorem ccount_boolText_ell (b : Bool) : ccount (boolText b) '…' = 0 := by
  cases b <;> decide

theorem ccount_radar_line_lbrace (d : RadarDetection) :
    ccount ("  " ++ write_radar_detection d ++ ",\n") '\x7b' = 1 := by
  simp only [write_radar_detection, f32Text, ccount_append, ccount_repr_lbrace]
  decide

theorem ccount_radar_line_ell (d : RadarDetection) :
    ccount ("  " ++ write_radar_detection d ++ ",\n") '…' = 0 := by
  simp only [write_radar_detection, f32Text, ccount_append, ccount_repr_ell]
  decide

theorem ccount_radar_preview_lbrace (ds : List RadarDetection) (total ms : Nat) :
    ccount (write_radar_seq_preview ds total ms) '\x7b' =
      min (min ms total) ds.length := by
  simp only [write_radar_seq_preview, ccount_append,
    ccount_concatMapStr_const _ _ 1 ccount_radar_line_lbrace, List.length_take]
  split
  · simp only [ccount_append, ccount_repr_lbrace]
    have h1 : ccount "[\n" '\x7b' = 0 := by decide
    have h2 : ccount "  … (" '\x7b' = 0 := by decide
    have h3 : ccount " more)\n" '\x7b' = 0 := by decide
    have h4 : ccount "]" '\x7b' = 0 := by decide
    omega
  · have h1 : ccount "[\n" '\x7b' = 0 := by decide
    have h2 : ccount "" '\x7b' = 0 := by decide
    have h4 : ccount "]" '\x7b' = 0 := by decide
    omega

theorem ccount_radar_preview_ell (ds : List RadarDetection) (total ms : Nat) :
    ccount (write_radar_seq_preview ds total ms) '…' =
      (if min (min ms total) ds.length < total then 1 else 0) := by
  simp only [write_radar_seq_preview, ccount_append,
    ccount_concatMapStr_const _ _ 0 ccount_radar_line_ell, List.length_take]
  split
  · simp only [ccount_append, ccount_repr_ell]
    have h1 : ccount "[\n" '…' = 0 := by decide
    have h2 : ccount "  … (" '…' = 1 := by decide
    have h3 : ccount " more)\n" '…' = 0 := by decide
    have h4 : ccount "]" '…' = 0 := by decide
    omega
  · have h1 : ccount "[\n" '…' = 0 := by decide
    have h2 : ccount "" '…' = 0 := by decide
    have h4 : ccount "]" '…' = 0 := by decide
    omega

theorem ccount_radar_header_lbrace (name : String) (hname : ccount name '\x7b' = 0)
    (da lv : Nat) (ev : Bool) :
    ccount (finish_non_exhaustive false name
      [("detection_amount", Nat.repr da), ("len", Nat.repr lv),
       ("is_empty", boolText ev)]) '\x7b' = 1 := by
  simp only [finish_non_exhaustive, Bool.false_eq_true, if_false, List.isEmpty_cons,
    write_row_elems, concatMapStr, ccount_append, ccount_repr_lbrace,
    ccount_boolText_lbrace, hname]
  decide

theorem ccount_radar_header_ell (name : String) (hname : ccount name '…' = 0)
    (da lv : Nat) (ev : Bool) :
    ccount (finish_non_exhaustive false name
      [("detection_amount", Nat.repr da), ("len", Nat.repr lv),
       ("is_empty", boolText ev)]) '…' = 0 := by
  simp only [finish_non_exhaustive, Bool.false_eq_true, if_false, List.isEmpty_cons,
    write_row_elems, concatMapStr, ccount_append, ccount_repr_ell,
    ccount_boolText_ell, hname]
  decide

theorem ccount_radar_debug_lbrace (s : RadarMeasurementSerDe) :
    ccount (RadarMeasurementSerDe.debugFmt false s) '\x7b' =
      1 + min (min PREVIEW_DETECTIONS s.len) s.detections.length := by
  simp only [RadarMeasurementSerDe.debugFmt, Bool.false_eq_true, if_false,
    ccount_append, ccount_radar_preview_lbrace, ccount_repr_lbrace,
    ccount_radar_header_lbrace "RadarMeasurementSerDe" (by decide)]
  have h1 : ccount "\ndetections " '\x7b' = 0 := by decide
  have h2 : ccount "(preview showing " '\x7b' = 0 := by decide
  have h3 : ccount " of " '\x7b' = 0 := by decide
  have h4 : ccount ") = " '\x7b' = 0 := by decide
  omega

theorem ccount_radar_debug_ell (s : RadarMeasurementSerDe) :
    ccount (RadarMeasurementSerDe.debugFmt false s) '…' =
      (if min (min PREVIEW_DETECTIONS s.len) s.detections.length < s.len
       then 1 else 0) := by
  simp only [RadarMeasurementSerDe.debugFmt, Bool.false_eq_true, if_false,
    ccount_append, ccount_radar_preview_ell, ccount_repr_ell,
    ccount_radar_header_ell "RadarMeasurementSerDe" (by decide)]
  have h1 : ccount "\ndetections " '…' = 0 := by decide
  have h2 : ccount "(preview showing " '…' = 0 := by decide
  have h3 : ccount " of " '…' = 0 := by decide
  have h4 : ccount ") = " '…' = 0 := by decide
  omega

theorem ccount_radarB_debug_lbrace (s : RadarMeasurementSerBorrowed) :
    ccount (RadarMeasurementSerBorrowed.debugFmt false s) '\x7b' =
      1 + min (min PREVIEW_DETECTIONS s.len) s.detections.length := by
  simp only [RadarMeasurementSerBorrowed.debugFmt, Bool.false_eq_true, if_false,
    ccount_append, ccount_radar_preview_lbrace, ccount_repr_lbrace,
    ccount_radar_header_lbrace "RadarMeasurementSerBorrowed" (by decide)]
  have h1 : ccount "\ndetections " '\x7b' = 0 := by decide
  have h2 : ccount "(preview showing " '\x7b' = 0 := by decide
  have h3 : ccount " of " '\x7b' = 0 := by decide
  have h4 : ccount ") = " '\x7b' = 0 := by decide
  omega

theorem ccount_radarB_debug_ell (s : RadarMeasurementSerBorrowed) :
    ccount (RadarMeasurementSerBorrowed.debugFmt false s) '…' =
      (if min (min PREVIEW_DETECTIONS s.len) s.detections.length < s.len
       then 1 else 0) := by
  simp only [RadarMeasurementSerBorrowed.debugFmt, Bool.false_eq_true, if_false,
    ccount_append, ccount_radar_preview_ell, ccount_repr_ell,
    ccount_radar_header_ell "RadarMeasurementSerBorrowed" (by decide)]
  have h1 : ccount "\ndetections " '…' = 0 := by decide
  have h2 : ccount "(preview showing " '…' = 0 := by decide
  have h3 : ccount " of " '…' = 0 := by decide
  have h4 : ccount ") = " '…' = 0 := by decide
  omega

theorem radar_debug_elision (s : RadarMeasurementSerDe) :
    ∃ u v, (RadarMeasurementSerDe.debugFmt false s).data =
      u ++ ((if min (min PREVIEW_DETECTIONS s.len) s.detections.length < s.len
             then "  … (" ++ Nat.repr (s.len - min (min PREVIEW_DETECTIONS s.len)
                    s.detections.length) ++ " more)\n"
             else "")).data ++ v := by
  refine ⟨(finish_non_exhaustive false "RadarMeasurementSerDe"
      [("detection_amount", Nat.repr s.detection_amount),
       ("len", Nat.repr s.len), ("is_empty", boolText s.is_empty)]
    ++ "\ndetections " ++ "(preview showing "
    ++ Nat.repr (min PREVIEW_DETECTIONS s.len) ++ " of " ++ Nat.repr s.len
    ++ ") = " ++ "[\n"
    ++ concatMapStr (fun d => "  " ++ write_radar_detection d ++ ",\n")
         (s.detections.take (min PREVIEW_DETECTIONS s.len))).data,
    ("]" : String).data, ?_⟩
  simp only [RadarMeasurementSerDe.debugFmt, write_radar_seq_preview,
    Bool.false_eq_true, if_false, data_append, List.append_assoc, List.length_take]

/-- Concrete 10x10 image adapter used to check the preview bounding claim:
pixel `i` of the row-major data has channels (b, g, r, a) = (i, i+1, i+2,
i+3). -/
def img10 : ImageEventSerDe :=
  ⟨10, 10, 100, false, 0,
   ⟨10, 10, (List.range 100).map (fun i => ⟨i, i + 1, i + 2, i + 3⟩)⟩⟩

/-- Names of the fields of an encoded struct, in emission order. -/
def fieldNames : SValue → List String
  | .vstr fs => fs.map Prod.fst
  | _ => []

/-- Value of a named field of an encoded struct. -/
def SValue.getField : SValue → String → Option SValue
  | .vstr fields, k => (fields.find? (fun kv => kv.1 == k)).map Prod.snd
  | _, _ => none

/-- All-zero pixel used in concrete inputs. -/
def px0 : Color := ⟨0, 0, 0, 0⟩

-- ===================== claims =====================

/-- C1: decoding the encoding of a valid owned adapter — image, radar, IMU
or lane-invasion — yields the original adapter field-for-field.  Validity
is the grid shape invariant of the specification (rows of equal length and
a zero-row grid has width 0), which only constrains the image adapter; the
empty cases (0x0 grid, 0-length lists) satisfy it and are exercised by the
witness. -/
theorem C1_roundtrip (img : ImageEventSerDe) (rad : RadarMeasurementSerDe)
    (imu : ImuMeasurementSerDe) (lane : LaneInvasionEventSerDe)
    (hwf : img.array.wf) (h0 : img.array.h = 0 → img.array.w = 0) :
    ImageEventSerDe.decode (ImageEventSerDe.encode img) = .ok img
    ∧ RadarMeasurementSerDe.decode (RadarMeasurementSerDe.encode rad) = .ok rad
    ∧ ImuMeasurementSerDe.decode (ImuMeasurementSerDe.encode imu) = .ok imu
    ∧ LaneInvasionEventSerDe.decode (LaneInvasionEventSerDe.encode lane) = .ok lane :=
  ⟨ImageEventSerDe_rt img hwf h0, RadarMeasurementSerDe_rt rad,
   ImuMeasurementSerDe_rt imu, LaneInvasionEventSerDe_rt lane⟩

/-- Witness for C1 at the empty adapters: the 0x0 image, a 0-length
detection list and a 0-length marking list. -/
theorem C1_roundtrip_witness :
    (⟨0, 0, 0, true, 0, ⟨0, 0, []⟩⟩ : ImageEventSerDe).array.wf
    ∧ ImageEventSerDe.decode (ImageEventSerDe.encode ⟨0, 0, 0, true, 0, ⟨0, 0, []⟩⟩)
        = .ok ⟨0, 0, 0, true, 0, ⟨0, 0, []⟩⟩
    ∧ RadarMeasurementSerDe.decode (RadarMeasurementSerDe.encode ⟨0, [], 0, true⟩)
        = .ok ⟨0, [], 0, true⟩
    ∧ LaneInvasionEventSerDe.decode (LaneInvasionEventSerDe.encode ⟨[]⟩) = .ok ⟨[]⟩ := by
  have h := C1_roundtrip ⟨0, 0, 0, true, 0, ⟨0, 0, []⟩⟩ ⟨0, [], 0, true⟩
    ⟨⟨0, 0, 0⟩, ⟨0, 0, 0⟩, 0⟩ ⟨[]⟩ rfl (fun _ => rfl)
  exact ⟨rfl, h.1, h.2.1, h.2.2.2⟩

/-- C2: in the owned image payload decoder, with w the length of the first
inner sequence, any row of a different length makes decoding fail with the
ragged-grid error (no repair); in particular row lengths 3,3,2 fail while
row lengths 0,0,0 succeed and produce the 3x0 grid. -/
theorem C2_ragged (rss : List (List Color)) (r : List Color)
    (hmem : r ∈ rss)
    (hne : r.length ≠ (rss.head?.map List.length).getD 0) :
    array2_color_remote_deserialize
        (.vseq (rss.map (fun row => .vseq (row.map ColorRemote_serialize))))
      = .error (.custom "ragged 2D array")
    ∧ array2_color_remote_deserialize
        (.vseq ([List.replicate 3 px0, List.replicate 3 px0,
                 List.replicate 2 px0].map
          (fun row => .vseq (row.map ColorRemote_serialize))))
      = .error (.custom "ragged 2D array")
    ∧ array2_color_remote_deserialize (.vseq [.vseq [], .vseq [], .vseq []])
      = .ok ⟨3, 0, []⟩ := by
  refine ⟨?_, by rfl, by rfl⟩
  have hlen0 : rss.length ≠ 0 := by
    intro hz
    rw [List.length_eq_zero] at hz
    subst hz
    cases hmem
  simp only [array2_color_remote_deserialize,
    decodeListWith_map decodeColorRow _ decodeColorRow_rt rss, ok_bind]
  rw [if_neg (fun hand => hlen0 hand.2)]
  rw [if_neg ?_]
  intro hall
  have := List.all_eq_true.mp hall r hmem
  exact hne (by simpa using this)

/-- Witness for C2 at the ragged grid with row lengths 3, 3, 2. -/
theorem C2_ragged_witness :
    array2_color_remote_deserialize
        (.vseq ([[px0, px0, px0], [px0, px0, px0], [px0, px0]].map
          (fun row => .vseq (row.map ColorRemote_serialize))))
      = .error (.custom "ragged 2D array") :=
  (C2_ragged [[px0, px0, px0], [px0, px0, px0], [px0, px0]] [px0, px0]
    (by simp) (by decide)).1

/-- C3: the borrowed and the owned adapter constructed from the same source
event encode to the identical serde value (hence byte-identical output
under any serialization backend), for both the image and the radar kind. -/
theorem C3_borrowed_owned_eq (e : ImageEvent) (m : RadarMeasurementEvent) :
    (ImageEventSerBorrowed.ofEvent e).encode = (ImageEventSerDe.ofEvent e).encode
    ∧ (RadarMeasurementSerBorrowed.ofEvent m).encode
        = (RadarMeasurementSerDe.ofEvent m).encode := by
  constructor
  · simp only [ImageEventSerBorrowed.ofEvent, ImageEventSerDe.ofEvent,
      ImageEventSerBorrowed.encode, ImageEventSerDe.encode,
      arrayview2_color_remote_serialize, array2_color_remote_serialize, Array2.map]
    have hmap : e.arrData.flat.map
        (fun c : Color => { b := c.b, g := c.g, r := c.r, a := c.a : Color })
        = e.arrData.flat := by
      have hid : (fun c : Color => { b := c.b, g := c.g, r := c.r, a := c.a : Color })
          = fun c => c := rfl
      rw [hid, List.map_id']
    rw [hmap]
  · simp only [RadarMeasurementSerBorrowed.ofEvent, RadarMeasurementSerDe.ofEvent,
      RadarMeasurementSerBorrowed.encode, RadarMeasurementSerDe.encode,
      slice_radar_detection_remote_serialize, vec_radar_detection_remote_serialize]
    have hmap : m.detections.map
        (fun d : RadarDetection => { velocity := d.velocity, azimuth := d.azimuth,
                                     altitude := d.altitude, depth := d.depth : RadarDetection })
        = m.detections := by
      have hid : (fun d : RadarDetection =>
          { velocity := d.velocity, azimuth := d.azimuth,
            altitude := d.altitude, depth := d.depth : RadarDetection }) = fun d => d := rfl
      rw [hid, List.map_id']
    rw [hmap]

/-- C4: the pixel encode and decode path uses the foreign storage field
order b, g, r, a, while the textual renderer prints the channels in
r, g, b, a order; the cosmetic reordering does not appear in the encoded
field order. -/
theorem C4_pixel_field_order (c : Color) :
    fieldNames (ColorRemote_serialize c) = ["b", "g", "r", "a"]
    ∧ ColorRemote_serialize c =
        .vstr [("b", .vnat c.b), ("g", .vnat c.g), ("r", .vnat c.r), ("a", .vnat c.a)]
    ∧ ColorRemote_deserialize
        (.vstr [("b", .vnat c.b), ("g", .vnat c.g), ("r", .vnat c.r), ("a", .vnat c.a)])
      = .ok c
    ∧ write_rgba c =
        "(" ++ Nat.repr c.r ++ ", " ++ Nat.repr c.g ++ ", " ++ Nat.repr c.b
        ++ ", " ++ Nat.repr c.a ++ ")" :=
  ⟨rfl, rfl, rfl, rfl⟩

/-- C6: encoding an owned image adapter whose grid is 0x0 puts an empty
outer sequence in the array field, and decoding an empty outer sequence
yields the 0x0 grid rather than an error. -/
theorem C6_empty_grid (hh ww ll : Nat) (ee : Bool) (ff : Nat) :
    (ImageEventSerDe.encode ⟨hh, ww, ll, ee, ff, ⟨0, 0, []⟩⟩).getField "array"
      = some (.vseq [])
    ∧ array2_color_remote_serialize ⟨0, 0, []⟩ = .vseq []
    ∧ array2_color_remote_deserialize (.vseq []) = .ok ⟨0, 0, []⟩ :=
  ⟨rfl, rfl, rfl⟩

/-- C7: each lane-marking enum decodes every declared tag back to its exact
variant (the round trip through the emitted tag), and every tag above the
declared range fails with the unknown-variant error. -/
theorem C7_enum_tags (t : LaneMarking_Type) (c : LaneMarking_Color)
    (l : LaneMarking_LaneChange) (nt nc nl : Nat)
    (ht : 10 < nt) (hc : 5 < nc) (hl : 3 < nl) :
    LaneMarkingTypeSerDe_deserialize (.vtag t.tagOf) = .ok t
    ∧ LaneMarkingColorSerDe_deserialize (.vtag c.tagOf) = .ok c
    ∧ LaneMarkingLaneChangeSerDe_deserialize (.vtag l.tagOf) = .ok l
    ∧ LaneMarkingTypeSerDe_deserialize (.vtag nt) = .error (.unknownVariant nt)
    ∧ LaneMarkingColorSerDe_deserialize (.vtag nc) = .error (.unknownVariant nc)
    ∧ LaneMarkingLaneChangeSerDe_deserialize (.vtag nl) = .error (.unknownVariant nl) :=
  ⟨LaneMarking_Type_rt t, LaneMarking_Color_rt c, LaneMarking_LaneChange_rt l,
   LaneMarking_Type_ofTag_unknown nt ht, LaneMarking_Color_ofTag_unknown nc hc,
   LaneMarking_LaneChange_ofTag_unknown nl hl⟩

/-- Witness for C7 at the first out-of-range tag of each enum. -/
theorem C7_enum_tags_witness :
    LaneMarkingTypeSerDe_deserialize (.vtag 11) = .error (.unknownVariant 11)
    ∧ LaneMarkingColorSerDe_deserialize (.vtag 6) = .error (.unknownVariant 6)
    ∧ LaneMarkingLaneChangeSerDe_deserialize (.vtag 4) = .error (.unknownVariant 4) := by
  have h := C7_enum_tags .Other .Standard .None 11 6 4
    (by decide) (by decide) (by decide)
  exact ⟨h.2.2.2.1, h.2.2.2.2.1, h.2.2.2.2.2⟩

/-- Encoded image input whose scalar header disagrees with its payload:
height 5 and width 7 against a 1x1 grid. -/
def c9ImgInput : SValue :=
  .vstr [("height", .vnat 5), ("width", .vnat 7), ("len", .vnat 99),
         ("is_empty", .vbool false), ("fov_angle", .vf32 0),
         ("array", .vseq [.vseq [ColorRemote_serialize ⟨1, 2, 3, 4⟩]])]

/-- Encoded radar input whose scalar header disagrees with its payload:
detection_amount 0, len 99 and is_empty true against one detection. -/
def c9RadInput : SValue :=
  .vstr [("detection_amount", .vnat 0),
         ("detections", .vseq [RadarDetectionRemote_serialize ⟨1, 2, 3, 4⟩]),
         ("len", .vnat 99), ("is_empty", .vbool true)]

/-- C9: decoding performs no cross-field consistency validation: the image
decoder accepts a header whose height and width disagree with the decoded
grid dimensions, and the radar decoder accepts len, is_empty and
detection_amount that disagree with the decoded detection list. -/
theorem C9_no_cross_validation :
    (∃ A : ImageEventSerDe, ImageEventSerDe.decode c9ImgInput = .ok A
       ∧ A.height ≠ A.array.h ∧ A.width ≠ A.array.w)
    ∧ (∃ B : RadarMeasurementSerDe, RadarMeasurementSerDe.decode c9RadInput = .ok B
       ∧ B.len ≠ B.detections.length ∧ B.detection_amount ≠ B.detections.length
       ∧ B.is_empty = true ∧ B.detections ≠ []) :=
  ⟨⟨⟨5, 7, 99, false, 0, ⟨1, 1, [⟨1, 2, 3, 4⟩]⟩⟩, rfl, by decide, by decide⟩,
   ⟨⟨0, [⟨1, 2, 3, 4⟩], 99, true⟩, rfl, by decide, by decide, rfl, by decide⟩⟩

/-- C5: on the 10x10 grid `img10`, the preview render (non-alternate Debug)
shows exactly 3 matrix rows, each with exactly 3 pixels and ending in the
in-row elision marker, plus exactly one trailing elision line; the full
render (alternate Debug) shows all 10 rows with 10 pixels each and no
elision marker anywhere.  Matrix rows are the output lines that start with
two spaces and an opening bracket; pixels are counted by their opening
parenthesis (pixel texts are digit/comma/space only otherwise). -/
theorem C5_preview_bounding :
    ((splitLines (ImageEventSerDe.debugFmt false img10).data).filter
        (fun l => listStarts "  [".data l)).length = 3
    ∧ (∀ l ∈ (splitLines (ImageEventSerDe.debugFmt false img10).data).filter
          (fun l => listStarts "  [".data l),
        l.count '(' = 3 ∧ listEnds ", …],".data l = true)
    ∧ (splitLines (ImageEventSerDe.debugFmt false img10).data).count "  …".data = 1
    ∧ ((splitLines (ImageEventSerDe.debugFmt true img10).data).filter
        (fun l => listStarts "  [".data l)).length = 10
    ∧ (∀ l ∈ (splitLines (ImageEventSerDe.debugFmt true img10).data).filter
          (fun l => listStarts "  [".data l), l.count '(' = 10)
    ∧ (ImageEventSerDe.debugFmt true img10).data.count '…' = 0 := by
  decide

/-- Concrete radar adapter with 7 consistent detections, used as the C8
witness input. -/
def rad7 : RadarMeasurementSerDe :=
  ⟨7, (List.range 7).map (fun i => ⟨i, i, i, i⟩), 7, false⟩

/-- C8: for a consistent radar adapter (stored len equal to the number of
detections) the preview render shows min(5, len) detections — never more
than PREVIEW_DETECTIONS — and emits exactly one remaining-count elision
line exactly when more detections exist than shown; and in both modes the
radar and image Debug output begins with the unconditional non-exhaustive
scalar header.  Detections shown are counted by their opening brace (the
header contributes exactly one brace, all other texts are brace-free). -/
theorem C8_radar_preview (s : RadarMeasurementSerDe) (img : ImageEventSerDe)
    (hlen : s.len = s.detections.length) :
    ccount (RadarMeasurementSerDe.debugFmt false s) '\x7b'
        = 1 + min PREVIEW_DETECTIONS s.len
    ∧ min PREVIEW_DETECTIONS s.len ≤ PREVIEW_DETECTIONS
    ∧ (PREVIEW_DETECTIONS < s.len →
        ccount (RadarMeasurementSerDe.debugFmt false s) '…' = 1
        ∧ ∃ u v, (RadarMeasurementSerDe.debugFmt false s).data =
            u ++ ("  … (" ++ Nat.repr (s.len - PREVIEW_DETECTIONS) ++ " more)\n").data ++ v)
    ∧ (s.len ≤ PREVIEW_DETECTIONS →
        ccount (RadarMeasurementSerDe.debugFmt false s) '…' = 0)
    ∧ (∀ alt, ∃ rest, RadarMeasurementSerDe.debugFmt alt s =
        finish_non_exhaustive alt "RadarMeasurementSerDe"
          [("detection_amount", Nat.repr s.detection_amount),
           ("len", Nat.repr s.len), ("is_empty", boolText s.is_empty)] ++ rest)
    ∧ (∀ alt, ∃ rest, ImageEventSerDe.debugFmt alt img =
        finish_non_exhaustive alt "ImageEventSerDe"
          [("height", Nat.repr img.height), ("width", Nat.repr img.width),
           ("len", Nat.repr img.len), ("is_empty", boolText img.is_empty),
           ("fov_angle", f32Text img.fov_angle)] ++ rest) := by
  have hmin : min (min PREVIEW_DETECTIONS s.len) s.detections.length
      = min PREVIEW_DETECTIONS s.len := by
    rw [← hlen]
    omega
  refine ⟨?_, ?_, ?_, ?_, ?_, ?_⟩
  · rw [ccount_radar_debug_lbrace, hmin]
  · exact Nat.min_le_left _ _
  · intro hgt
    have h5 : min (min PREVIEW_DETECTIONS s.len) s.detections.length
        = PREVIEW_DETECTIONS := by rw [hmin]; omega
    constructor
    · rw [ccount_radar_debug_ell, if_pos (by omega)]
    · obtain ⟨u, v, heq⟩ := radar_debug_elision s
      rw [h5, if_pos (by omega)] at heq
      exact ⟨u, v, heq⟩
  · intro hle
    rw [ccount_radar_debug_ell, if_neg (by omega)]
  · intro alt
    refine ⟨"\ndetections "
      ++ (if alt then
            "(full, " ++ Nat.repr s.len ++ " total) = "
            ++ write_radar_seq_full s.detections
          else
            "(preview showing " ++ Nat.repr (min PREVIEW_DETECTIONS s.len) ++ " of "
            ++ Nat.repr s.len ++ ") = "
            ++ write_radar_seq_preview s.detections s.len PREVIEW_DETECTIONS), ?_⟩
    simp only [RadarMeasurementSerDe.debugFmt]
    rw [String.append_assoc]
  · intro alt
    refine ⟨"\narray "
      ++ (if alt then
            "(full " ++ Nat.repr img.array.h ++ "x" ++ Nat.repr img.array.w ++ ") = "
            ++ write_full_matrix img.array.rowsList write_rgba
          else
            "(preview " ++ Nat.repr img.array.h ++ "x" ++ Nat.repr img.array.w
            ++ ", showing " ++ Nat.repr (min PREVIEW_H img.array.h) ++ "x"
            ++ Nat.repr (min PREVIEW_W img.array.w) ++ ") = "
            ++ write_preview_matrix img.array.rowsList img.array.h
                 (min PREVIEW_H img.array.h) (min PREVIEW_W img.array.w) write_rgba), ?_⟩
    simp only [ImageEventSerDe.debugFmt]
    rw [String.append_assoc]

/-- Witness for C8 at the consistent 7-detection adapter `rad7`. -/
theorem C8_radar_preview_witness :
    rad7.len = rad7.detections.length
    ∧ ccount (RadarMeasurementSerDe.debugFmt false rad7) '\x7b'
        = 1 + min PREVIEW_DETECTIONS rad7.len
    ∧ ccount (RadarMeasurementSerDe.debugFmt false rad7) '…' = 1 := by
  have h := C8_radar_preview rad7 img10 (by decide)
  exact ⟨by decide, h.1, (h.2.2.1 (by decide)).1⟩

/-- C10: the preview render of a radar adapter takes its notion of total
from the stored len field, not from the detection list: it shows exactly
min(5, len, detections.length) detections (counted by their opening brace,
on top of the single header brace) and emits the remaining-count elision
line, annotated with len minus the number shown, exactly when len exceeds
the number shown — for both the owned and the borrowed Debug impl. -/
theorem C10_len_driven_preview (s : RadarMeasurementSerDe)
    (b : RadarMeasurementSerBorrowed) :
    ccount (RadarMeasurementSerDe.debugFmt false s) '\x7b'
        = 1 + min (min PREVIEW_DETECTIONS s.len) s.detections.length
    ∧ ccount (RadarMeasurementSerDe.debugFmt false s) '…'
        = (if min (min PREVIEW_DETECTIONS s.len) s.detections.length < s.len
           then 1 else 0)
    ∧ (∃ u v, (RadarMeasurementSerDe.debugFmt false s).data =
        u ++ ((if min (min PREVIEW_DETECTIONS s.len) s.detections.length < s.len
               then "  … (" ++ Nat.repr (s.len - min (min PREVIEW_DETECTIONS s.len)
                      s.detections.length) ++ " more)\n"
               else "")).data ++ v)
    ∧ ccount (RadarMeasurementSerBorrowed.debugFmt false b) '\x7b'
        = 1 + min (min PREVIEW_DETECTIONS b.len) b.detections.length
    ∧ ccount (RadarMeasurementSerBorrowed.debugFmt false b) '…'
        = (if min (min PREVIEW_DETECTIONS b.len) b.detections.length < b.len
           then 1 else 0) :=
  ⟨ccount_radar_debug_lbrace s, ccount_radar_debug_ell s, radar_debug_elision s,
   ccount_radarB_debug_lbrace b, ccount_radarB_debug_ell b⟩
